import Mathlib

/-!
Verification of the difference-matting core of the nano-banana-pro scripts
(`scripts/transparency.py` and the transparent branch of `scripts/generate.py`).

The pixel buffers are 8-bit RGB rasters; numpy float32 arithmetic is modelled
by exact real arithmetic, and the exact float division in
`background_is_black` by rational arithmetic.  `astype(np.uint8)` applied to a
value already clipped into [0, 255] truncates towards zero, i.e. takes the
natural-number floor.
-/

namespace NanoBanana

/-- An RGB pixel: three 8-bit channel values (held as naturals; 8-bit inputs
satisfy `r, g, b ≤ 255`). -/
structure RGB where
  r : ℕ
  g : ℕ
  b : ℕ
deriving DecidableEq

/-- An RGBA pixel of the output buffer. -/
structure RGBAPixel where
  r : ℕ
  g : ℕ
  b : ℕ
  a : ℕ
deriving DecidableEq

/-- A raster image, already coerced to RGB (PIL `convert('RGB')` drops any
alpha channel).  `px x y` is the pixel at column `x`, row `y`. -/
structure RasterImage where
  width : ℕ
  height : ℕ
  px : ℕ → ℕ → RGB

/-- The RGBA raster produced by the matting engine. -/
structure RGBAImage where
  width : ℕ
  height : ℕ
  px : ℕ → ℕ → RGBAPixel

/-- All channel values of an image are 8-bit, as PIL guarantees. -/
def RasterImage.valid (img : RasterImage) : Prop :=
  ∀ x y : ℕ, (img.px x y).r ≤ 255 ∧ (img.px x y).g ≤ 255 ∧ (img.px x y).b ≤ 255

/-- `bg_dist = math.sqrt(3 * 255 * 255)`: the distance between pure white and
pure black observations (transparency.py line 45). -/
noncomputable def bg_dist : ℝ := Real.sqrt (3 * 255 * 255)

/-- Per-pixel Euclidean distance between the white-background and
black-background observations: `np.sqrt(np.sum(diff ** 2, axis=2))`
(transparency.py lines 48-49). -/
noncomputable def pixel_dist (wp bp : RGB) : ℝ :=
  Real.sqrt (((wp.r : ℝ) - (bp.r : ℝ)) ^ 2 + ((wp.g : ℝ) - (bp.g : ℝ)) ^ 2 +
    ((wp.b : ℝ) - (bp.b : ℝ)) ^ 2)

/-- The alpha estimate as a function of the pixel distance:
`alpha = np.clip(1.0 - pixel_dist / bg_dist, 0, 1)`
(transparency.py lines 52-53).  `np.clip(v, 0, 1) = min (max v 0) 1`. -/
noncomputable def alphaOfDist (d : ℝ) : ℝ :=
  min (max (1 - d / bg_dist) 0) 1

/-- numpy broadcast index selection along one axis: an axis of extent 1 is
repeated, i.e. always read at index 0. -/
def srcIdx (n i : ℕ) : ℕ :=
  if n = 1 then 0 else i

/-- numpy broadcasting of one axis: extents agree, or one of them is 1;
otherwise the subtraction `white_arr - black_arr` raises. -/
def broadcastDim (a b : ℕ) : Option ℕ :=
  if a = b then some a else if a = 1 then some b else if b = 1 then some a else none

/-- The real-valued alpha estimate of the output pixel at `(x, y)`
(before quantization to 0-255). -/
noncomputable def mattingAlpha (white black : RasterImage) (x y : ℕ) : ℝ :=
  alphaOfDist (pixel_dist
    (white.px (srcIdx white.width x) (srcIdx white.height y))
    (black.px (srcIdx black.width x) (srcIdx black.height y)))

/-- `alpha_safe = np.where(alpha_expanded > 0.01, alpha_expanded, 1.0)`
(transparency.py line 60): the divisor used for color recovery. -/
noncomputable def alpha_safe (a : ℝ) : ℝ :=
  if 0.01 < a then a else 1

/-- One recovered color channel:
`np.clip(black_arr / alpha_safe, 0, 255).astype(np.uint8)`
(transparency.py lines 62-63). -/
noncomputable def recoveredChannel (c : ℕ) (aSafe : ℝ) : ℕ :=
  ⌊min (max ((c : ℝ) / aSafe) 0) 255⌋₊

/-- The RGBA output pixel at `(x, y)`: recovered color from the
black-background observation plus the quantized alpha
`(alpha * 255).astype(np.uint8)` (transparency.py lines 59-69). -/
noncomputable def mattingPixel (white black : RasterImage) (x y : ℕ) : RGBAPixel :=
  let bp := black.px (srcIdx black.width x) (srcIdx black.height y)
  let a := mattingAlpha white black x y
  { r := recoveredChannel bp.r (alpha_safe a)
    g := recoveredChannel bp.g (alpha_safe a)
    b := recoveredChannel bp.b (alpha_safe a)
    a := ⌊a * 255⌋₊ }

/-- The only failure mode of the matting engine: the numpy broadcast of the
two buffers fails (`white_arr - black_arr` raises a ValueError). -/
inductive MattingError where
  | shapeMismatch
deriving DecidableEq

/-- `extract_alpha_difference_matting` (transparency.py lines 20-71): on
broadcast-compatible shapes, the RGBA result over the broadcast extent;
otherwise the numpy shape error. -/
noncomputable def extract_alpha_difference_matting (white black : RasterImage) :
    Except MattingError RGBAImage :=
  match broadcastDim white.width black.width, broadcastDim white.height black.height with
  | some w, some h => .ok { width := w, height := h, px := mattingPixel white black }
  | _, _ => .error .shapeMismatch

/-- One corner test of `background_is_black`: passes when the float mean
`(r + g + b) / 3` does not exceed the threshold (transparency.py line 90
returns False exactly when the mean is strictly greater). -/
def cornerDark (p : RGB) (threshold : ℕ) : Bool :=
  decide ((((p.r : ℚ) + (p.g : ℚ) + (p.b : ℚ)) / 3) ≤ (threshold : ℚ))

/-- `background_is_black` (transparency.py lines 74-92): all four corner
pixels of the RGB-coerced image must be near-black. -/
def background_is_black (img : RasterImage) (threshold : ℕ) : Bool :=
  cornerDark (img.px 0 0) threshold &&
  cornerDark (img.px (img.width - 1) 0) threshold &&
  cornerDark (img.px 0 (img.height - 1)) threshold &&
  cornerDark (img.px (img.width - 1) (img.height - 1)) threshold

/-! ### The black-background retry stage

`generate_transparent_image` (transparency.py lines 150-186) and the
transparent branch of generate.py (lines 106-141) run the same loop: up to
`max_black_attempts` edit requests; after each response the first image
payload, if any, is stored into `img_on_black` (which otherwise keeps its
previous value), and the loop stops as soon as the stored image exists and
passes `background_is_black`.  After the loop the stored image is rechecked;
failure raises a RuntimeError.  An attempt's response is abstracted to its
first image payload (`Option RasterImage`). -/

/-- The loop's stop condition `img_on_black is not None and
background_is_black(img_on_black)` applied to the stored value. -/
def passes (cur : Option RasterImage) : Bool :=
  match cur with
  | some img => background_is_black img 20
  | none => false

/-- Updating `img_on_black` from one response: a payload overwrites it, no
payload leaves the previous value in place. -/
def nextCur (r cur : Option RasterImage) : Option RasterImage :=
  match r with
  | some img => some img
  | none => cur

/-- The retry loop over the list of payloads the successive attempts would
return, starting from stored value `cur`.  Yields the number of requests
issued and the final stored value. -/
def blackLoop (resps : List (Option RasterImage)) (cur : Option RasterImage) :
    ℕ × Option RasterImage :=
  match resps with
  | [] => (0, cur)
  | r :: rest =>
      let cur2 := nextCur r cur
      if passes cur2 then (1, cur2)
      else
        let p := blackLoop rest cur2
        (p.1 + 1, p.2)

/-- The stage's failure: `RuntimeError("Failed to convert to black background
after retries")`. -/
inductive StageError where
  | exhaustedRetries
deriving DecidableEq

/-- The check after the loop: `if img_on_black is None or not
background_is_black(img_on_black): raise`. -/
def stagePost (cur : Option RasterImage) : Except StageError RasterImage :=
  match cur with
  | some img => if background_is_black img 20 then .ok img else .error .exhaustedRetries
  | none => .error .exhaustedRetries

/-- The whole black-background stage on a budget of `resps.length` attempts. -/
def blackStage (resps : List (Option RasterImage)) : Except StageError RasterImage :=
  stagePost (blackLoop resps none).2

/-- Number of generation edit requests the stage issues. -/
def blackRequests (resps : List (Option RasterImage)) : ℕ :=
  (blackLoop resps none).1

/-- Modelled from the spec: the reference retry loop in which "retries are
independent; no state carried between attempts besides the attempt counter" —
each attempt's success is decided by its own response alone, and nothing is
retained from failed attempts. -/
def statelessLoop (resps : List (Option RasterImage)) : ℕ × Option RasterImage :=
  match resps with
  | [] => (0, none)
  | r :: rest =>
      if passes r then (1, r)
      else
        let p := statelessLoop rest
        (p.1 + 1, p.2)

/-- The black-background stage built on the stateless reference loop. -/
def statelessStage (resps : List (Option RasterImage)) : Except StageError RasterImage :=
  stagePost (statelessLoop resps).2

/-! ### Concrete images used in scenarios and witnesses -/

/-- A constant-color image. -/
def constImage (w h : ℕ) (p : RGB) : RasterImage :=
  { width := w, height := h, px := fun _ _ => p }

/-- 2×2 all-black image. -/
def allBlack2 : RasterImage := constImage 2 2 ⟨0, 0, 0⟩

/-- 2×2 all-white image. -/
def allWhite2 : RasterImage := constImage 2 2 ⟨255, 255, 255⟩

/-- 2×2 image whose corners have channel mean exactly 20. -/
def gray20Image : RasterImage := constImage 2 2 ⟨20, 20, 20⟩

/-- 2×2 image whose corners have channel mean exactly 21. -/
def gray21Image : RasterImage := constImage 2 2 ⟨21, 21, 21⟩

/-- 3×3 all-black image (used for shape-mismatch scenarios). -/
def allBlack3 : RasterImage := constImage 3 3 ⟨0, 0, 0⟩

/-- 1×1 all-white image (broadcasts against any shape). -/
def white1 : RasterImage := constImage 1 1 ⟨255, 255, 255⟩

/-- 2×2 constant teal-ish image with in-range channels. -/
def teal2 : RasterImage := constImage 2 2 ⟨10, 20, 30⟩

/-- The C8 scenario subject color. -/
def subjectRGB : RGB := ⟨200, 50, 50⟩

/-- C8 white canvas: solid white with the subject pixel at (0,0). -/
def whiteCanvas : RasterImage :=
  { width := 2, height := 2
    px := fun x y => if x = 0 ∧ y = 0 then subjectRGB else ⟨255, 255, 255⟩ }

/-- C8 black canvas: solid black with the same subject pixel at (0,0). -/
def blackCanvas : RasterImage :=
  { width := 2, height := 2
    px := fun x y => if x = 0 ∧ y = 0 then subjectRGB else ⟨0, 0, 0⟩ }

/-! ### Basic lemmas about the matting arithmetic -/

lemma bg_dist_pos : 0 < bg_dist :=
  Real.sqrt_pos.mpr (by norm_num)

lemma bg_dist_eq_sq : bg_dist = Real.sqrt (3 * 255 ^ 2) := by
  unfold bg_dist; norm_num

lemma pixel_dist_nonneg (wp bp : RGB) : 0 ≤ pixel_dist wp bp :=
  Real.sqrt_nonneg _

lemma pixel_dist_self (p : RGB) : pixel_dist p p = 0 := by
  simp [pixel_dist]

lemma pixel_dist_white_black : pixel_dist ⟨255, 255, 255⟩ ⟨0, 0, 0⟩ = bg_dist := by
  unfold pixel_dist bg_dist
  norm_num

lemma alphaOfDist_zero : alphaOfDist 0 = 1 := by
  simp [alphaOfDist]

lemma alphaOfDist_bg_dist : alphaOfDist bg_dist = 0 := by
  simp [alphaOfDist, div_self (ne_of_gt bg_dist_pos)]

lemma alphaOfDist_nonneg (d : ℝ) : 0 ≤ alphaOfDist d :=
  le_min (le_max_right _ 0) zero_le_one

lemma alphaOfDist_le_one (d : ℝ) : alphaOfDist d ≤ 1 :=
  min_le_right _ 1

lemma alphaOfDist_anti {d1 d2 : ℝ} (h : d1 ≤ d2) :
    alphaOfDist d2 ≤ alphaOfDist d1 := by
  have hd : d1 / bg_dist ≤ d2 / bg_dist := (div_le_div_iff_of_pos_right bg_dist_pos).mpr h
  exact min_le_min (max_le_max (by linarith) le_rfl) le_rfl

lemma alphaOfDist_linear {d : ℝ} (h0 : 0 ≤ d) (h1 : d ≤ bg_dist) :
    alphaOfDist d = 1 - d / bg_dist := by
  have hle : d / bg_dist ≤ 1 := (div_le_one bg_dist_pos).mpr h1
  have hge : 0 ≤ d / bg_dist := div_nonneg h0 bg_dist_pos.le
  rw [alphaOfDist, max_eq_left (by linarith), min_eq_left (by linarith)]

lemma alpha_safe_one : alpha_safe 1 = 1 := by
  rw [alpha_safe, if_pos (by norm_num)]

lemma alpha_safe_of_le {a : ℝ} (h : a ≤ 0.01) : alpha_safe a = 1 := by
  rw [alpha_safe, if_neg (not_lt.mpr h)]

lemma recoveredChannel_one {c : ℕ} (h : c ≤ 255) : recoveredChannel c 1 = c := by
  rw [recoveredChannel, div_one, max_eq_left (Nat.cast_nonneg c),
    min_eq_left (by exact_mod_cast h)]
  exact Nat.floor_natCast c

lemma recoveredChannel_le (c : ℕ) (aSafe : ℝ) : recoveredChannel c aSafe ≤ 255 :=
  calc recoveredChannel c aSafe ≤ ⌊(255 : ℝ)⌋₊ := Nat.floor_le_floor (min_le_right _ _)
    _ = 255 := by norm_num

lemma floor_scale_le {a : ℝ} (h : a ≤ 1) : ⌊a * 255⌋₊ ≤ 255 :=
  calc ⌊a * 255⌋₊ ≤ ⌊(255 : ℝ)⌋₊ := Nat.floor_le_floor (by nlinarith)
    _ = 255 := by norm_num

lemma srcIdx_of_lt {n i : ℕ} (h : i < n) : srcIdx n i = i := by
  rw [srcIdx]
  split
  · omega
  · rfl

lemma broadcastDim_self (n : ℕ) : broadcastDim n n = some n := by
  rw [broadcastDim, if_pos rfl]

lemma extract_eq_ok {white black : RasterImage} {w h : ℕ}
    (hw : broadcastDim white.width black.width = some w)
    (hh : broadcastDim white.height black.height = some h) :
    extract_alpha_difference_matting white black =
      .ok { width := w, height := h, px := mattingPixel white black } := by
  unfold extract_alpha_difference_matting
  rw [hw, hh]

lemma extract_eq_error {white black : RasterImage}
    (hcase : broadcastDim white.width black.width = none ∨
      broadcastDim white.height black.height = none) :
    extract_alpha_difference_matting white black = .error .shapeMismatch := by
  unfold extract_alpha_difference_matting
  rcases hbw : broadcastDim white.width black.width with _ | w <;>
    rcases hbh : broadcastDim white.height black.height with _ | h <;>
      simp_all

lemma mattingAlpha_self (I : RasterImage) (x y : ℕ) : mattingAlpha I I x y = 1 := by
  rw [mattingAlpha, pixel_dist_self, alphaOfDist_zero]

/-! ### Lemmas about the retry loop -/

lemma passes_nextCur {r cur : Option RasterImage} (hcur : passes cur = false) :
    passes (nextCur r cur) = passes r := by
  cases r with
  | some img => rfl
  | none => simpa [nextCur, passes] using hcur

lemma blackLoop_eq_stateless (resps : List (Option RasterImage)) :
    ∀ cur, passes cur = false →
      (blackLoop resps cur).1 = (statelessLoop resps).1 ∧
      stagePost (blackLoop resps cur).2 = stagePost (statelessLoop resps).2 := by
  induction resps with
  | nil =>
      intro cur hcur
      refine ⟨rfl, ?_⟩
      cases cur with
      | none => rfl
      | some img =>
          have : background_is_black img 20 = false := by simpa [passes] using hcur
          simp [blackLoop, statelessLoop, stagePost, this]
  | cons r rest ih =>
      intro cur hcur
      have hkey : passes (nextCur r cur) = passes r := passes_nextCur hcur
      by_cases hp : passes r = true
      · obtain ⟨img, rfl⟩ : ∃ img, r = some img := by
          cases r with
          | none => simp [passes] at hp
          | some img => exact ⟨img, rfl⟩
        simp [blackLoop, statelessLoop, hkey, hp, nextCur]
      · have hp' : passes r = false := by
          revert hp; cases passes r <;> simp
        have := ih (nextCur r cur) (by rw [hkey, hp'])
        constructor
        · simp [blackLoop, statelessLoop, hkey, hp', this.1]
        · simpa [blackLoop, statelessLoop, hkey, hp'] using this.2

lemma statelessLoop_count_le (resps : List (Option RasterImage)) :
    (statelessLoop resps).1 ≤ resps.length := by
  induction resps with
  | nil => simp [statelessLoop]
  | cons r rest ih =>
      by_cases hp : passes r = true
      · simp [statelessLoop, hp]
      · simp [statelessLoop, hp]
        omega

lemma statelessLoop_first (resps : List (Option RasterImage)) :
    ∀ k : ℕ, passes (resps.getD k none) = true →
      (∀ j : ℕ, j < k → passes (resps.getD j none) = false) →
      (statelessLoop resps).1 = k + 1 ∧
        ∃ img, resps.getD k none = some img ∧
          stagePost (statelessLoop resps).2 = .ok img := by
  induction resps with
  | nil => intro k hk _; simp [passes] at hk
  | cons r rest ih =>
      intro k hk hprev
      cases k with
      | zero =>
          have hr : passes r = true := by simpa using hk
          obtain ⟨img, rfl⟩ : ∃ img, r = some img := by
            cases r with
            | none => simp [passes] at hr
            | some img => exact ⟨img, rfl⟩
          have hbg : background_is_black img 20 = true := by simpa [passes] using hr
          exact ⟨by simp [statelessLoop, hr], img, by simp,
            by simp [statelessLoop, hr, stagePost, hbg]⟩
      | succ k =>
          have hr : passes r = false := by simpa using hprev 0 (Nat.succ_pos k)
          have hres := ih k (by simpa using hk)
            (fun j hj => by simpa using hprev (j + 1) (Nat.succ_lt_succ hj))
          refine ⟨?_, ?_⟩
          · simp [statelessLoop, hr, hres.1]
          · simpa [statelessLoop, hr] using hres.2

lemma statelessLoop_exhaust (resps : List (Option RasterImage)) :
    (∀ k : ℕ, passes (resps.getD k none) = false) →
    (statelessLoop resps).2 = none := by
  induction resps with
  | nil => intro _; simp [statelessLoop]
  | cons r rest ih =>
      intro hall
      have hr : passes r = false := by simpa using hall 0
      simp [statelessLoop, hr]
      exact ih (fun k => by simpa using hall (k + 1))

/-! ### Concrete evaluations shared by several proofs -/

lemma bg_black_allBlack2 : background_is_black allBlack2 20 = true := by
  norm_num [background_is_black, cornerDark, allBlack2, constImage]

lemma bg_black_allWhite2 : background_is_black allWhite2 20 = false := by
  norm_num [background_is_black, cornerDark, allWhite2, constImage]

lemma bg_black_gray20 : background_is_black gray20Image 20 = true := by
  norm_num [background_is_black, cornerDark, gray20Image, constImage]

lemma bg_black_gray21 : background_is_black gray21Image 20 = false := by
  norm_num [background_is_black, cornerDark, gray21Image, constImage]

lemma mattingAlpha_white_black : mattingAlpha allWhite2 allBlack2 0 0 = 0 := by
  show alphaOfDist (pixel_dist ⟨255, 255, 255⟩ ⟨0, 0, 0⟩) = 0
  rw [pixel_dist_white_black, alphaOfDist_bg_dist]

lemma mattingAlpha_canvas_subject : mattingAlpha whiteCanvas blackCanvas 0 0 = 1 := by
  show alphaOfDist (pixel_dist subjectRGB subjectRGB) = 1
  rw [pixel_dist_self, alphaOfDist_zero]

/-! ### The claims -/

/-- C1: for same-dimension RGB-coerced inputs, the per-pixel alpha computed by
`extract_alpha_difference_matting` equals `clamp(1 − d/D, 0, 1)` where `d` is
the Euclidean distance between the pixel's white-background and
black-background observations and `D = sqrt(3 × 255²)`; before quantization
the alpha is monotonically decreasing in `d`, equals `1 − d/D` (so is linear)
on `0 ≤ d ≤ D`, and takes value 1 at `d = 0` and 0 at `d = D`. -/
theorem alpha_is_clamped_linear_in_distance :
    (∀ white black : RasterImage, ∀ x y : ℕ,
        white.width = black.width → white.height = black.height →
        x < white.width → y < white.height →
        mattingAlpha white black x y =
          min (max (1 - Real.sqrt ((((white.px x y).r : ℝ) - ((black.px x y).r : ℝ)) ^ 2 +
              (((white.px x y).g : ℝ) - ((black.px x y).g : ℝ)) ^ 2 +
              (((white.px x y).b : ℝ) - ((black.px x y).b : ℝ)) ^ 2) /
            Real.sqrt (3 * 255 ^ 2)) 0) 1) ∧
    (∀ d1 d2 : ℝ, d1 ≤ d2 → alphaOfDist d2 ≤ alphaOfDist d1) ∧
    (∀ d : ℝ, 0 ≤ d → d ≤ Real.sqrt (3 * 255 ^ 2) →
        alphaOfDist d = 1 - d / Real.sqrt (3 * 255 ^ 2)) ∧
    alphaOfDist 0 = 1 ∧ alphaOfDist (Real.sqrt (3 * 255 ^ 2)) = 0 := by
  refine ⟨?_, fun d1 d2 h => alphaOfDist_anti h, ?_, alphaOfDist_zero, ?_⟩
  · intro white black x y hw hh hx hy
    rw [mattingAlpha, srcIdx_of_lt hx, srcIdx_of_lt hy, srcIdx_of_lt (hw ▸ hx),
      srcIdx_of_lt (hh ▸ hy), pixel_dist, alphaOfDist, bg_dist_eq_sq]
  · intro d h0 h1
    rw [← bg_dist_eq_sq] at h1 ⊢
    exact alphaOfDist_linear h0 h1
  · rw [← bg_dist_eq_sq]
    exact alphaOfDist_bg_dist

/-- C1 witness: the clamp formula at the all-black 2×2 pair at pixel (0,0),
antitonicity at `d = 0 ≤ 1`, and linearity at `d = 0`. -/
theorem alpha_is_clamped_linear_in_distance_witness :
    mattingAlpha allBlack2 allBlack2 0 0 =
      min (max (1 - Real.sqrt ((((allBlack2.px 0 0).r : ℝ) - ((allBlack2.px 0 0).r : ℝ)) ^ 2 +
          (((allBlack2.px 0 0).g : ℝ) - ((allBlack2.px 0 0).g : ℝ)) ^ 2 +
          (((allBlack2.px 0 0).b : ℝ) - ((allBlack2.px 0 0).b : ℝ)) ^ 2) /
        Real.sqrt (3 * 255 ^ 2)) 0) 1 ∧
    alphaOfDist 1 ≤ alphaOfDist 0 ∧
    alphaOfDist 0 = 1 - 0 / Real.sqrt (3 * 255 ^ 2) :=
  ⟨alpha_is_clamped_linear_in_distance.1 allBlack2 allBlack2 0 0 rfl rfl
      (by decide) (by decide),
    alpha_is_clamped_linear_in_distance.2.1 0 1 zero_le_one,
    alpha_is_clamped_linear_in_distance.2.2.1 0 le_rfl (Real.sqrt_nonneg _)⟩

/-- C2: the black-background stage issues at most one generation edit request
per available attempt (at most `max_attempts`, default 5, in a full-budget
run), stops at the first attempt whose response both carries an image payload
and passes `background_is_black`, returning exactly that payload, and fails
fatally with the exhausted-retries error when no attempt passes. -/
theorem black_stage_bounded_and_stops_at_first_pass :
    ∀ resps : List (Option RasterImage),
      blackRequests resps ≤ resps.length ∧
      (∀ k : ℕ, passes (resps.getD k none) = true →
        (∀ j : ℕ, j < k → passes (resps.getD j none) = false) →
        blackRequests resps = k + 1 ∧
          ∃ img, resps.getD k none = some img ∧ blackStage resps = .ok img) ∧
      ((∀ k : ℕ, passes (resps.getD k none) = false) →
        blackStage resps = .error .exhaustedRetries) := by
  intro resps
  have heq := blackLoop_eq_stateless resps none rfl
  refine ⟨?_, ?_, ?_⟩
  · rw [blackRequests, heq.1]
    exact statelessLoop_count_le resps
  · intro k hk hprev
    obtain ⟨hcount, img, himg, hok⟩ := statelessLoop_first resps k hk hprev
    exact ⟨by rw [blackRequests, heq.1, hcount], img, himg,
      by rw [blackStage, heq.2, hok]⟩
  · intro hall
    have h2 := statelessLoop_exhaust resps hall
    rw [blackStage, heq.2, h2]
    rfl

/-- C2 witness: on a default five-attempt budget where attempt 1 returns no
payload and attempt 2 returns an all-black image, exactly 2 of the at most 5
requests are issued and the stage succeeds with that image. -/
theorem black_stage_bounded_and_stops_at_first_pass_witness :
    blackRequests [none, some allBlack2, none, none, none] = 2 ∧
    blackStage [none, some allBlack2, none, none, none] = .ok allBlack2 ∧
    blackRequests [none, some allBlack2, none, none, none] ≤ 5 := by
  have h := black_stage_bounded_and_stops_at_first_pass
    [none, some allBlack2, none, none, none]
  have hk : passes (([none, some allBlack2, none, none, none] :
      List (Option RasterImage)).getD 1 none) = true := by
    show background_is_black allBlack2 20 = true
    exact bg_black_allBlack2
  have hprev : ∀ j : ℕ, j < 1 → passes (([none, some allBlack2, none, none, none] :
      List (Option RasterImage)).getD j none) = false := by
    intro j hj
    have hj0 : j = 0 := by omega
    subst hj0
    rfl
  obtain ⟨hcount, img, himg, hok⟩ := h.2.1 1 hk hprev
  have himg' : img = allBlack2 := by
    have hx := himg
    simp [List.getD] at hx
    exact hx.symm
  subst himg'
  exact ⟨hcount, hok, h.1⟩

/-- C3: `background_is_black` returns true exactly when each of the four
corner pixels (top-left, top-right, bottom-left, bottom-right) has mean
channel value at most the threshold; at the default threshold 20 an all-black
image passes, an all-white image fails, a corner mean of exactly 20 passes
(the boundary is inclusive) and a corner mean of 21 fails. -/
theorem background_is_black_checks_four_corner_means :
    (∀ img : RasterImage, ∀ threshold : ℕ,
        background_is_black img threshold = true ↔
          ((((img.px 0 0).r : ℚ) + ((img.px 0 0).g : ℚ) + ((img.px 0 0).b : ℚ)) / 3
              ≤ (threshold : ℚ) ∧
            (((img.px (img.width - 1) 0).r : ℚ) + ((img.px (img.width - 1) 0).g : ℚ) +
                ((img.px (img.width - 1) 0).b : ℚ)) / 3 ≤ (threshold : ℚ) ∧
            (((img.px 0 (img.height - 1)).r : ℚ) + ((img.px 0 (img.height - 1)).g : ℚ) +
                ((img.px 0 (img.height - 1)).b : ℚ)) / 3 ≤ (threshold : ℚ) ∧
            (((img.px (img.width - 1) (img.height - 1)).r : ℚ) +
                ((img.px (img.width - 1) (img.height - 1)).g : ℚ) +
                ((img.px (img.width - 1) (img.height - 1)).b : ℚ)) / 3 ≤ (threshold : ℚ))) ∧
    background_is_black allBlack2 20 = true ∧
    background_is_black allWhite2 20 = false ∧
    background_is_black gray20Image 20 = true ∧
    background_is_black gray21Image 20 = false := by
  refine ⟨?_, bg_black_allBlack2, bg_black_allWhite2, bg_black_gray20, bg_black_gray21⟩
  intro img threshold
  simp [background_is_black, cornerDark, Bool.and_eq_true, decide_eq_true_iff, and_assoc]

/-- C3 witness: the concrete corner-mean evaluations at the default
threshold. -/
theorem background_is_black_checks_four_corner_means_witness :
    background_is_black allBlack2 20 = true ∧
    background_is_black allWhite2 20 = false ∧
    background_is_black gray20Image 20 = true ∧
    background_is_black gray21Image 20 = false :=
  ⟨background_is_black_checks_four_corner_means.2.1,
    background_is_black_checks_four_corner_means.2.2.1,
    background_is_black_checks_four_corner_means.2.2.2.1,
    background_is_black_checks_four_corner_means.2.2.2.2⟩

/-- C4: at every pixel whose alpha estimate is at most 0.01 the color-recovery
division uses divisor 1.0 instead of the alpha, and every output color channel
is a well-defined value in [0, 255] (in this exact-arithmetic model no NaN or
infinity can arise; the channels are bytes at most 255). -/
theorem near_zero_alpha_uses_unit_divisor :
    ∀ white black : RasterImage, ∀ x y : ℕ,
      mattingAlpha white black x y ≤ 0.01 →
      alpha_safe (mattingAlpha white black x y) = 1 ∧
      (mattingPixel white black x y).r ≤ 255 ∧
      (mattingPixel white black x y).g ≤ 255 ∧
      (mattingPixel white black x y).b ≤ 255 := by
  intro white black x y h
  exact ⟨alpha_safe_of_le h, recoveredChannel_le _ _, recoveredChannel_le _ _,
    recoveredChannel_le _ _⟩

/-- C4 witness: the all-white/all-black pair has alpha 0 ≤ 0.01 at (0,0), the
divisor is rewritten to 1 and the output channel is in range. -/
theorem near_zero_alpha_uses_unit_divisor_witness :
    alpha_safe (mattingAlpha allWhite2 allBlack2 0 0) = 1 ∧
    (mattingPixel allWhite2 allBlack2 0 0).r ≤ 255 := by
  have h := near_zero_alpha_uses_unit_divisor allWhite2 allBlack2 0 0
    (by rw [mattingAlpha_white_black]; norm_num)
  exact ⟨h.1, h.2.1⟩

/-- C5 counterexample: a 1×1 white input against a 3×3 black input has
mismatched dimensions, yet `extract_alpha_difference_matting` does not fail:
numpy broadcasting silently repeats the size-1 axes and the call returns a
3×3 result. -/
theorem mismatched_1x1_vs_3x3_is_silently_broadcast :
    white1.width = 1 ∧ white1.height = 1 ∧
    allBlack3.width = 3 ∧ allBlack3.height = 3 ∧
    extract_alpha_difference_matting white1 allBlack3 =
      .ok { width := 3, height := 3, px := mattingPixel white1 allBlack3 } :=
  ⟨rfl, rfl, rfl, rfl, extract_eq_ok rfl rfl⟩

/-- C5 amended: `extract_alpha_difference_matting` fails (with the
shape-mismatch error raised by the numpy subtraction) exactly when the two
shapes are not broadcast-compatible, i.e. when along some axis the extents
differ and neither is 1; in particular 2×2 versus 3×3 fails.  The shape error
is the matting engine's only failure mode: there is no separate InvalidInput
validation (pixels are 8-bit integers, so all-NaN input cannot occur). -/
theorem shape_error_iff_not_broadcastable :
    (∀ white black : RasterImage,
        extract_alpha_difference_matting white black = .error .shapeMismatch ↔
          (broadcastDim white.width black.width = none ∨
            broadcastDim white.height black.height = none)) ∧
    (∀ a b : ℕ, broadcastDim a b = none ↔ (a ≠ b ∧ a ≠ 1 ∧ b ≠ 1)) ∧
    extract_alpha_difference_matting allBlack2 allBlack3 = .error .shapeMismatch ∧
    (∀ e : MattingError, e = .shapeMismatch) := by
  refine ⟨?_, ?_, extract_eq_error (Or.inl rfl), ?_⟩
  · intro white black
    rcases hbw : broadcastDim white.width black.width with _ | w
    · simp [extract_eq_error (Or.inl hbw)]
    · rcases hbh : broadcastDim white.height black.height with _ | h
      · simp [extract_eq_error (Or.inr hbh)]
      · simp [extract_eq_ok hbw hbh]
  · intro a b
    rw [broadcastDim]
    split_ifs <;> simp_all
  · intro e
    cases e
    rfl

/-- C5 witness: the amended claim at the concrete 2×2 versus 3×3 pair. -/
theorem shape_error_iff_not_broadcastable_witness :
    extract_alpha_difference_matting allBlack2 allBlack3 = .error .shapeMismatch :=
  shape_error_iff_not_broadcastable.2.2.1

/-- C6: the retry loop's carried `img_on_black` variable is observationally
irrelevant: the number of requests issued and the stage outcome coincide with
those of the stateless reference loop in which each attempt's success or
failure is decided by that attempt's own response alone and no payload is
retained from earlier failed attempts. -/
theorem retry_outcomes_depend_only_on_own_response :
    ∀ resps : List (Option RasterImage),
      blackRequests resps = (statelessLoop resps).1 ∧
      blackStage resps = statelessStage resps := by
  intro resps
  exact blackLoop_eq_stateless resps none rfl

/-- C6 witness: the equivalence at a concrete one-attempt run whose response
is a non-black image. -/
theorem retry_outcomes_depend_only_on_own_response_witness :
    blackRequests [some allWhite2] = (statelessLoop [some allWhite2]).1 ∧
    blackStage [some allWhite2] = statelessStage [some allWhite2] :=
  retry_outcomes_depend_only_on_own_response [some allWhite2]

/-- C7: matting an image against itself succeeds, preserves the dimensions,
and yields alpha 255 with the original RGB values at every in-bounds pixel. -/
theorem identical_inputs_give_opaque_identity :
    ∀ I : RasterImage, I.valid →
      extract_alpha_difference_matting I I =
        .ok { width := I.width, height := I.height, px := mattingPixel I I } ∧
      ∀ x y : ℕ, x < I.width → y < I.height →
        (mattingPixel I I x y).a = 255 ∧
        (mattingPixel I I x y).r = (I.px x y).r ∧
        (mattingPixel I I x y).g = (I.px x y).g ∧
        (mattingPixel I I x y).b = (I.px x y).b := by
  intro I hv
  refine ⟨extract_eq_ok (broadcastDim_self _) (broadcastDim_self _), ?_⟩
  intro x y hx hy
  have ha : mattingAlpha I I x y = 1 := mattingAlpha_self I x y
  have hsafe : alpha_safe (mattingAlpha I I x y) = 1 := by rw [ha, alpha_safe_one]
  obtain ⟨hr, hg, hb⟩ := hv x y
  refine ⟨?_, ?_, ?_, ?_⟩
  · show ⌊mattingAlpha I I x y * 255⌋₊ = 255
    rw [ha]; norm_num
  · show recoveredChannel (I.px (srcIdx I.width x) (srcIdx I.height y)).r
      (alpha_safe (mattingAlpha I I x y)) = (I.px x y).r
    rw [srcIdx_of_lt hx, srcIdx_of_lt hy, hsafe, recoveredChannel_one hr]
  · show recoveredChannel (I.px (srcIdx I.width x) (srcIdx I.height y)).g
      (alpha_safe (mattingAlpha I I x y)) = (I.px x y).g
    rw [srcIdx_of_lt hx, srcIdx_of_lt hy, hsafe, recoveredChannel_one hg]
  · show recoveredChannel (I.px (srcIdx I.width x) (srcIdx I.height y)).b
      (alpha_safe (mattingAlpha I I x y)) = (I.px x y).b
    rw [srcIdx_of_lt hx, srcIdx_of_lt hy, hsafe, recoveredChannel_one hb]

/-- C7 witness: matting the constant (10,20,30) 2×2 image against itself gives
alpha 255 and the original red channel at pixel (0,0). -/
theorem identical_inputs_give_opaque_identity_witness :
    extract_alpha_difference_matting teal2 teal2 =
      .ok { width := 2, height := 2, px := mattingPixel teal2 teal2 } ∧
    (mattingPixel teal2 teal2 0 0).a = 255 ∧
    (mattingPixel teal2 teal2 0 0).r = 10 := by
  have h := identical_inputs_give_opaque_identity teal2
    (fun x y => by refine ⟨?_, ?_, ?_⟩ <;> norm_num [teal2, constImage])
  exact ⟨h.1, (h.2 0 0 (by decide) (by decide)).1, (h.2 0 0 (by decide) (by decide)).2.1⟩

/-- C8: on the 2×2 scenario — solid white canvas and solid black canvas, both
with the subject pixel (200,50,50) at (0,0) — the output has alpha 255 and
color (200,50,50) at the subject pixel and alpha 0 at the other three
pixels. -/
theorem two_by_two_canvas_scenario :
    extract_alpha_difference_matting whiteCanvas blackCanvas =
      .ok { width := 2, height := 2, px := mattingPixel whiteCanvas blackCanvas } ∧
    (mattingPixel whiteCanvas blackCanvas 0 0).a = 255 ∧
    (mattingPixel whiteCanvas blackCanvas 0 0).r = 200 ∧
    (mattingPixel whiteCanvas blackCanvas 0 0).g = 50 ∧
    (mattingPixel whiteCanvas blackCanvas 0 0).b = 50 ∧
    (mattingPixel whiteCanvas blackCanvas 1 0).a = 0 ∧
    (mattingPixel whiteCanvas blackCanvas 0 1).a = 0 ∧
    (mattingPixel whiteCanvas blackCanvas 1 1).a = 0 := by
  have ha00 := mattingAlpha_canvas_subject
  have hsafe : alpha_safe (mattingAlpha whiteCanvas blackCanvas 0 0) = 1 := by
    rw [ha00, alpha_safe_one]
  have ha10 : mattingAlpha whiteCanvas blackCanvas 1 0 = 0 := by
    show alphaOfDist (pixel_dist ⟨255, 255, 255⟩ ⟨0, 0, 0⟩) = 0
    rw [pixel_dist_white_black, alphaOfDist_bg_dist]
  have ha01 : mattingAlpha whiteCanvas blackCanvas 0 1 = 0 := by
    show alphaOfDist (pixel_dist ⟨255, 255, 255⟩ ⟨0, 0, 0⟩) = 0
    rw [pixel_dist_white_black, alphaOfDist_bg_dist]
  have ha11 : mattingAlpha whiteCanvas blackCanvas 1 1 = 0 := by
    show alphaOfDist (pixel_dist ⟨255, 255, 255⟩ ⟨0, 0, 0⟩) = 0
    rw [pixel_dist_white_black, alphaOfDist_bg_dist]
  refine ⟨extract_eq_ok (broadcastDim_self _) (broadcastDim_self _),
    ?_, ?_, ?_, ?_, ?_, ?_, ?_⟩
  · show ⌊mattingAlpha whiteCanvas blackCanvas 0 0 * 255⌋₊ = 255
    rw [ha00]; norm_num
  · show recoveredChannel subjectRGB.r (alpha_safe (mattingAlpha whiteCanvas blackCanvas 0 0)) = 200
    rw [hsafe, recoveredChannel_one (by norm_num [subjectRGB])]
    rfl
  · show recoveredChannel subjectRGB.g (alpha_safe (mattingAlpha whiteCanvas blackCanvas 0 0)) = 50
    rw [hsafe, recoveredChannel_one (by norm_num [subjectRGB])]
    rfl
  · show recoveredChannel subjectRGB.b (alpha_safe (mattingAlpha whiteCanvas blackCanvas 0 0)) = 50
    rw [hsafe, recoveredChannel_one (by norm_num [subjectRGB])]
    rfl
  · show ⌊mattingAlpha whiteCanvas blackCanvas 1 0 * 255⌋₊ = 0
    rw [ha10]; norm_num
  · show ⌊mattingAlpha whiteCanvas blackCanvas 0 1 * 255⌋₊ = 0
    rw [ha01]; norm_num
  · show ⌊mattingAlpha whiteCanvas blackCanvas 1 1 * 255⌋₊ = 0
    rw [ha11]; norm_num

/-- C9: at every pixel whose alpha estimate is at most 0.01, the output RGB is
the black-background observation unchanged: division by the substituted
divisor 1.0 followed by the clamp to [0, 255] is the identity on the
already-in-range black-background byte values. -/
theorem near_zero_alpha_returns_black_channels :
    ∀ white black : RasterImage, ∀ x y : ℕ,
      x < black.width → y < black.height →
      mattingAlpha white black x y ≤ 0.01 →
      (black.px x y).r ≤ 255 → (black.px x y).g ≤ 255 → (black.px x y).b ≤ 255 →
      (mattingPixel white black x y).r = (black.px x y).r ∧
      (mattingPixel white black x y).g = (black.px x y).g ∧
      (mattingPixel white black x y).b = (black.px x y).b := by
  intro white black x y hx hy ha hr hg hb
  have hsafe : alpha_safe (mattingAlpha white black x y) = 1 := alpha_safe_of_le ha
  refine ⟨?_, ?_, ?_⟩
  · show recoveredChannel (black.px (srcIdx black.width x) (srcIdx black.height y)).r
      (alpha_safe (mattingAlpha white black x y)) = (black.px x y).r
    rw [srcIdx_of_lt hx, srcIdx_of_lt hy, hsafe, recoveredChannel_one hr]
  · show recoveredChannel (black.px (srcIdx black.width x) (srcIdx black.height y)).g
      (alpha_safe (mattingAlpha white black x y)) = (black.px x y).g
    rw [srcIdx_of_lt hx, srcIdx_of_lt hy, hsafe, recoveredChannel_one hg]
  · show recoveredChannel (black.px (srcIdx black.width x) (srcIdx black.height y)).b
      (alpha_safe (mattingAlpha white black x y)) = (black.px x y).b
    rw [srcIdx_of_lt hx, srcIdx_of_lt hy, hsafe, recoveredChannel_one hb]

/-- C9 witness: in the all-white/all-black pair the pixel (0,0) has alpha 0
and the output RGB equals the black observation (0,0,0). -/
theorem near_zero_alpha_returns_black_channels_witness :
    (mattingPixel allWhite2 allBlack2 0 0).r = 0 ∧
    (mattingPixel allWhite2 allBlack2 0 0).g = 0 ∧
    (mattingPixel allWhite2 allBlack2 0 0).b = 0 :=
  near_zero_alpha_returns_black_channels allWhite2 allBlack2 0 0
    (by decide) (by decide)
    (by rw [mattingAlpha_white_black]; norm_num)
    (by decide) (by decide) (by decide)

/-- C10: for same-dimension inputs the output is an RGBA raster of exactly
the input width and height, with all four channels 8-bit values at most
255. -/
theorem output_matches_dims_with_byte_channels :
    ∀ white black : RasterImage,
      white.width = black.width → white.height = black.height →
      extract_alpha_difference_matting white black =
        .ok { width := white.width, height := white.height, px := mattingPixel white black } ∧
      ∀ x y : ℕ,
        (mattingPixel white black x y).r ≤ 255 ∧
        (mattingPixel white black x y).g ≤ 255 ∧
        (mattingPixel white black x y).b ≤ 255 ∧
        (mattingPixel white black x y).a ≤ 255 := by
  intro white black hw hh
  constructor
  · exact extract_eq_ok (by rw [hw, broadcastDim_self]) (by rw [hh, broadcastDim_self])
  · intro x y
    refine ⟨recoveredChannel_le _ _, recoveredChannel_le _ _, recoveredChannel_le _ _, ?_⟩
    show ⌊mattingAlpha white black x y * 255⌋₊ ≤ 255
    exact floor_scale_le (alphaOfDist_le_one _)

/-- C10 witness: the all-white/all-black 2×2 pair produces a 2×2 RGBA output
with byte channels. -/
theorem output_matches_dims_with_byte_channels_witness :
    extract_alpha_difference_matting allWhite2 allBlack2 =
      .ok { width := 2, height := 2, px := mattingPixel allWhite2 allBlack2 } ∧
    (mattingPixel allWhite2 allBlack2 0 0).a ≤ 255 := by
  have h := output_matches_dims_with_byte_channels allWhite2 allBlack2 rfl rfl
  exact ⟨h.1, (h.2 0 0).2.2.2⟩

end NanoBanana
